import Mathlib

/-!
Verification of the DummyJSON ETL pipeline (`processor.py`) and its database
inspector (`view_db.py`).

The embedding models parsed JSON values (Python objects obtained from
`json.loads` / `response.json()`) as the inductive `Json` below.  Numbers are
modelled as integers: every numeric literal the claims exercise is
integer-valued, and Python float formatting on integer-valued floats agrees
with the integer model.  Python dictionaries are association lists in
insertion order, as guaranteed by CPython and by `json.loads`.
-/

/-- Parsed JSON / Python runtime value. `num` carries an `Int` (see header). -/
inductive Json where
  | null
  | bool (b : Bool)
  | num (n : Int)
  | str (s : String)
  | arr (xs : List Json)
  | obj (kvs : List (String × Json))

mutual

def Json.decEq : (a b : Json) → Decidable (a = b)
  | .null, .null => isTrue rfl
  | .bool a, .bool b =>
    if h : a = b then isTrue (by rw [h]) else
      isFalse (by intro e; injection e; contradiction)
  | .num a, .num b =>
    if h : a = b then isTrue (by rw [h]) else
      isFalse (by intro e; injection e; contradiction)
  | .str a, .str b =>
    if h : a = b then isTrue (by rw [h]) else
      isFalse (by intro e; injection e; contradiction)
  | .arr xs, .arr ys =>
    match Json.decEqList xs ys with
    | isTrue h => isTrue (by rw [h])
    | isFalse h => isFalse (by intro e; injection e; contradiction)
  | .obj xs, .obj ys =>
    match Json.decEqPairs xs ys with
    | isTrue h => isTrue (by rw [h])
    | isFalse h => isFalse (by intro e; injection e; contradiction)
  | .null, .bool _ => isFalse fun h => Json.noConfusion h
  | .null, .num _ => isFalse fun h => Json.noConfusion h
  | .null, .str _ => isFalse fun h => Json.noConfusion h
  | .null, .arr _ => isFalse fun h => Json.noConfusion h
  | .null, .obj _ => isFalse fun h => Json.noConfusion h
  | .bool _, .null => isFalse fun h => Json.noConfusion h
  | .bool _, .num _ => isFalse fun h => Json.noConfusion h
  | .bool _, .str _ => isFalse fun h => Json.noConfusion h
  | .bool _, .arr _ => isFalse fun h => Json.noConfusion h
  | .bool _, .obj _ => isFalse fun h => Json.noConfusion h
  | .num _, .null => isFalse fun h => Json.noConfusion h
  | .num _, .bool _ => isFalse fun h => Json.noConfusion h
  | .num _, .str _ => isFalse fun h => Json.noConfusion h
  | .num _, .arr _ => isFalse fun h => Json.noConfusion h
  | .num _, .obj _ => isFalse fun h => Json.noConfusion h
  | .str _, .null => isFalse fun h => Json.noConfusion h
  | .str _, .bool _ => isFalse fun h => Json.noConfusion h
  | .str _, .num _ => isFalse fun h => Json.noConfusion h
  | .str _, .arr _ => isFalse fun h => Json.noConfusion h
  | .str _, .obj _ => isFalse fun h => Json.noConfusion h
  | .arr _, .null => isFalse fun h => Json.noConfusion h
  | .arr _, .bool _ => isFalse fun h => Json.noConfusion h
  | .arr _, .num _ => isFalse fun h => Json.noConfusion h
  | .arr _, .str _ => isFalse fun h => Json.noConfusion h
  | .arr _, .obj _ => isFalse fun h => Json.noConfusion h
  | .obj _, .null => isFalse fun h => Json.noConfusion h
  | .obj _, .bool _ => isFalse fun h => Json.noConfusion h
  | .obj _, .num _ => isFalse fun h => Json.noConfusion h
  | .obj _, .str _ => isFalse fun h => Json.noConfusion h
  | .obj _, .arr _ => isFalse fun h => Json.noConfusion h

def Json.decEqList : (a b : List Json) → Decidable (a = b)
  | [], [] => isTrue rfl
  | [], _ :: _ => isFalse fun h => List.noConfusion h
  | _ :: _, [] => isFalse fun h => List.noConfusion h
  | x :: xs, y :: ys =>
    match Json.decEq x y, Json.decEqList xs ys with
    | isTrue h1, isTrue h2 => isTrue (by rw [h1, h2])
    | isFalse h1, _ => isFalse (by intro e; injection e with e1 e2; exact h1 e1)
    | _, isFalse h2 => isFalse (by intro e; injection e with e1 e2; exact h2 e2)

def Json.decEqPairs : (a b : List (String × Json)) → Decidable (a = b)
  | [], [] => isTrue rfl
  | [], _ :: _ => isFalse fun h => List.noConfusion h
  | _ :: _, [] => isFalse fun h => List.noConfusion h
  | (k1, v1) :: xs, (k2, v2) :: ys =>
    if hk : k1 = k2 then
      match Json.decEq v1 v2, Json.decEqPairs xs ys with
      | isTrue h1, isTrue h2 => isTrue (by rw [hk, h1, h2])
      | isFalse h1, _ => isFalse (by
          intro e; injection e with e1 e2
          exact h1 (congrArg Prod.snd e1))
      | _, isFalse h2 => isFalse (by intro e; injection e with e1 e2; exact h2 e2)
    else
      isFalse (by intro e; injection e with e1 e2; exact hk (congrArg Prod.fst e1))

end

instance : DecidableEq Json := Json.decEq

/-- First-match association lookup, i.e. Python `dict` access on the
association-list model of a dict with distinct keys. -/
def alookup : List (String × Json) → String → Option Json
  | [], _ => none
  | kv :: rest, k => if kv.1 = k then some kv.2 else alookup rest k

/-- Python truthiness of a parsed-JSON runtime value (`bool(x)`). -/
def truthy : Json → Bool
  | .null => false
  | .bool b => b
  | .num n => n != 0
  | .str s => s != ""
  | .arr xs => !xs.isEmpty
  | .obj kvs => !kvs.isEmpty

def quoteChar : Char := Char.ofNat 34

def backslashChar : Char := Char.ofNat 92

/-- JSON string escaping used by `json.dumps` (quote and backslash; control
characters do not occur in the inputs modelled here). -/
def escChar (c : Char) : List Char :=
  if c = quoteChar then [backslashChar, quoteChar]
  else if c = backslashChar then [backslashChar, backslashChar]
  else [c]

def quoteStr (s : String) : String :=
  String.mk (quoteChar :: (s.toList.map escChar).flatten ++ [quoteChar])

def joinComma (xs : List String) : String := String.intercalate ", " xs

mutual
/-- `json.dumps` with the default separators `(", ", ": ")`. -/
def dumps : Json → String
  | .null => "null"
  | .bool true => "true"
  | .bool false => "false"
  | .num n => toString n
  | .str s => quoteStr s
  | .arr xs => "[" ++ joinComma (dumpsList xs) ++ "]"
  | .obj kvs => "\x7b" ++ joinComma (dumpsPairs kvs) ++ "\x7d"

def dumpsList : List Json → List String
  | [] => []
  | x :: xs => dumps x :: dumpsList xs

def dumpsPairs : List (String × Json) → List String
  | [] => []
  | kv :: rest => (quoteStr kv.1 ++ ": " ++ dumps kv.2) :: dumpsPairs rest
end

mutual
/-- Python `repr` of a value parsed from JSON (`None`/`True`/`False`,
single-quoted strings, bracketed lists, braced dicts). -/
def pyRepr : Json → String
  | .null => "None"
  | .bool true => "True"
  | .bool false => "False"
  | .num n => toString n
  | .str s => "\x27" ++ s ++ "\x27"
  | .arr xs => "[" ++ joinComma (pyReprList xs) ++ "]"
  | .obj kvs => "\x7b" ++ joinComma (pyReprPairs kvs) ++ "\x7d"

def pyReprList : List Json → List String
  | [] => []
  | x :: xs => pyRepr x :: pyReprList xs

def pyReprPairs : List (String × Json) → List String
  | [] => []
  | kv :: rest => ("\x27" ++ kv.1 ++ "\x27: " ++ pyRepr kv.2) :: pyReprPairs rest
end

/-- Python `str` of a value parsed from JSON: strings print bare, containers
and scalars print as their `repr`. -/
def pyStr : Json → String
  | .str s => s
  | j => pyRepr j

/-! ## API client (`fetch_api_data`, processor.py lines 43-73)

The network is an oracle: each request either succeeds with a parsed JSON
body (after `raise_for_status`, so the status is 2xx), times out, fails at
the network layer (DNS, connection refused, non-2xx raised by
`raise_for_status`), or yields a body that is not valid JSON. -/

inductive HttpOutcome where
  | success (status : Nat) (body : Json)
  | timeout
  | networkError (details : String)
  | decodeError (details : String)

/-- `fetch_api_data`: returns the parsed body on success and `None` on every
failure; the second component is the log line the call emits (info on
success, error otherwise), with the message texts of processor.py. -/
def fetch_api_data (url : String) : HttpOutcome → Option Json × String
  | .success status body =>
    (some body, "API ответил успешно: HTTP " ++ toString status)
  | .timeout =>
    (none, "Таймаут при запросе к " ++ url ++ " - API не отвечает")
  | .networkError details =>
    (none, "Ошибка сетевого запроса к API " ++ url ++ ": " ++ details)
  | .decodeError details =>
    (none, "Получен некорректный JSON от " ++ url ++ ": " ++ details)

/-! ## Storage gateway (processor.py lines 80-183)

A table is a list of rows in insertion order; a row is the primary-key cell
`api_id` paired with the remaining column cells, each cell a Python value
bound into the SQL statement.  The database maps table names to tables.
`sqlite3.Error` outcomes (connection, schema, insert failures) are oracle
booleans passed in by the caller. -/

abbrev Row : Type := Json × List Json

abbrev DB : Type := List (String × List Row)

def hasTable (db : DB) (name : String) : Bool :=
  db.any fun t => t.1 = name

def getTable (db : DB) (name : String) : List Row :=
  match db.find? fun t => t.1 = name with
  | some t => t.2
  | none => []

def setTable (db : DB) (name : String) (rows : List Row) : DB :=
  db.map fun t => if t.1 = name then (t.1, rows) else t

/-- `init_db_table` (lines 108-139): looks the table up in `sqlite_master`
and executes the `CREATE TABLE` statement only when absent; returns `True`
in both branches.  `createOk = false` models a `sqlite3.Error` raised by the
creation statement, in which case the function rolls back and returns
`False`. -/
def init_db_table (createOk : Bool) (db : DB) (name : String) : DB × Bool :=
  if hasTable db name then (db, true)
  else if createOk then (db ++ [(name, [])], true)
  else (db, false)

/-- The `executemany` loop of an `INSERT OR IGNORE` statement: a row whose
primary-key cell already occurs in the table is skipped; otherwise it is
appended.  Returns the new table and `cursor.rowcount`, the number of rows
actually inserted. -/
def save_rows (t : List Row) : List Row → List Row × Nat
  | [] => (t, 0)
  | r :: rest =>
    if t.any fun q => q.1 = r.1 then save_rows t rest
    else
      let p := save_rows (t ++ [r]) rest
      (p.1, p.2 + 1)

/-- `save_data_to_db` (lines 142-183): empty input returns 0 without touching
the database; otherwise the batch runs under `INSERT OR IGNORE`.
`execOk = false` models a `sqlite3.Error` during `executemany`, upon which
the transaction is rolled back and 0 returned. -/
def save_data_to_db (execOk : Bool) (t : List Row) (data : List Row) :
    List Row × Nat :=
  if data.isEmpty then (t, 0)
  else if execOk then save_rows t data
  else (t, 0)

/-! ## Python-semantics helpers for the processor bodies -/

/-- Exceptions the processor bodies can raise. -/
inductive PyError where
  | typeError
  | attributeError
  deriving DecidableEq

instance {ε α : Type} [DecidableEq ε] [DecidableEq α] :
    DecidableEq (Except ε α)
  | .ok a, .ok b =>
    if h : a = b then isTrue (by rw [h]) else
      isFalse (by intro e; injection e; contradiction)
  | .error a, .error b =>
    if h : a = b then isTrue (by rw [h]) else
      isFalse (by intro e; injection e; contradiction)
  | .ok _, .error _ => isFalse fun h => Except.noConfusion h
  | .error _, .ok _ => isFalse fun h => Except.noConfusion h

/-- Substring test (Python `needle in hay` on strings). -/
def strContains (hay needle : String) : Bool :=
  (List.range (hay.toList.length + 1)).any fun i =>
    needle.toList.isPrefixOf (hay.toList.drop i)

/-- Python `key in value` for a string key: key lookup on dicts, element
membership on lists, substring test on strings, `TypeError` on scalars. -/
def membTest (j : Json) (key : String) : Except PyError Bool :=
  match j with
  | .obj kvs => .ok (alookup kvs key).isSome
  | .arr xs => .ok (xs.contains (.str key))
  | .str s => .ok (strContains s key)
  | _ => .error .typeError

/-- Python `value[key]` for a string key, evaluated only after a successful
membership test, so the dict case cannot raise `KeyError` here; lists and
strings reject string subscripts with `TypeError`. -/
def subscript (j : Json) (key : String) : Except PyError Json :=
  match j with
  | .obj kvs => .ok ((alookup kvs key).getD .null)
  | _ => .error .typeError

/-- Python `for x in v`: lists yield elements, dicts their keys, strings
their characters; scalars raise `TypeError`. -/
def iterElems (j : Json) : Except PyError (List Json) :=
  match j with
  | .arr xs => .ok xs
  | .obj kvs => .ok (kvs.map fun kv => .str kv.1)
  | .str s => .ok (s.toList.map fun c => .str (String.singleton c))
  | _ => .error .typeError

/-- Python `rec.get(key, default)`: `AttributeError` unless `rec` is a dict. -/
def pyGet (rec : Json) (key : String) (dflt : Json) : Except PyError Json :=
  match rec with
  | .obj kvs => .ok ((alookup kvs key).getD dflt)
  | _ => .error .attributeError

/-- Numeric value of an operand of Python `sum` (`bool` is an `int`
subclass); `none` when adding it raises `TypeError`. -/
def numVal : Json → Option Int
  | .num n => some n
  | .bool b => some (if b then 1 else 0)
  | _ => none

/-- `sum(values)`: total of a list of numeric operands, `none` when some
operand is non-numeric. -/
def sumNums : List Json → Option Int
  | [] => some 0
  | v :: rest =>
    match numVal v, sumNums rest with
    | some a, some b => some (a + b)
    | _, _ => none

/-- Reaction normalization in `process_posts` (lines 480-483): a dict is
replaced by `sum(reactions.values())` (raising `TypeError` when a value is
non-numeric); any other value passes through unchanged. -/
def normalizeReactions : Json → Except PyError Json
  | .obj kvs =>
    match sumNums (kvs.map fun kv => kv.2) with
    | some s => .ok (.num s)
    | none => .error .typeError
  | v => .ok v

/-! ## Entity record transforms (processor.py lines 245-265, 358-400, 473-494)

Each transform turns one raw record into the value tuple bound into the
`INSERT` statement: the `api_id` primary-key cell followed by the remaining
column cells in declared order.  Nested fields go through `json.dumps` with
a default of `[]` or `\x7b\x7d` when absent. -/

/-- Python `dict.get(key, default)` on the association-list model. -/
def dictGet (kvs : List (String × Json)) (key : String) (dflt : Json) : Json :=
  (alookup kvs key).getD dflt

/-- Product tuple (lines 252-264): columns `api_id, title, description,
price, discountPercentage, rating, stock, brand, category, thumbnail,
images`; `images` is serialized.  Each `product.get(...)` is a `dictGet`
(the first `.get` call raises `AttributeError` when the record is not a
dict). -/
def productTuple (product : Json) : Except PyError Row :=
  match product with
  | .obj kvs =>
    .ok (dictGet kvs "id" Json.null,
      [dictGet kvs "title" Json.null,
       dictGet kvs "description" Json.null,
       dictGet kvs "price" Json.null,
       dictGet kvs "discountPercentage" Json.null,
       dictGet kvs "rating" Json.null,
       dictGet kvs "stock" Json.null,
       dictGet kvs "brand" Json.null,
       dictGet kvs "category" Json.null,
       dictGet kvs "thumbnail" Json.null,
       Json.str (dumps (dictGet kvs "images" (Json.arr [])))])
  | _ => .error .attributeError

/-- User tuple (lines 364-399): the 27 `users` columns in declared order;
`hair`, `address`, `bank`, `company` are serialized with default `\x7b\x7d`. -/
def userTuple (user : Json) : Except PyError Row :=
  match user with
  | .obj kvs =>
    .ok (dictGet kvs "id" Json.null,
      [dictGet kvs "firstName" Json.null,
       dictGet kvs "lastName" Json.null,
       dictGet kvs "maidenName" Json.null,
       dictGet kvs "age" Json.null,
       dictGet kvs "gender" Json.null,
       dictGet kvs "email" Json.null,
       dictGet kvs "phone" Json.null,
       dictGet kvs "username" Json.null,
       dictGet kvs "password" Json.null,
       dictGet kvs "birthDate" Json.null,
       dictGet kvs "image" Json.null,
       dictGet kvs "bloodGroup" Json.null,
       dictGet kvs "height" Json.null,
       dictGet kvs "weight" Json.null,
       dictGet kvs "eyeColor" Json.null,
       Json.str (dumps (dictGet kvs "hair" (Json.obj []))),
       dictGet kvs "domain" Json.null,
       dictGet kvs "ip" Json.null,
       Json.str (dumps (dictGet kvs "address" (Json.obj []))),
       dictGet kvs "macAddress" Json.null,
       dictGet kvs "university" Json.null,
       Json.str (dumps (dictGet kvs "bank" (Json.obj []))),
       Json.str (dumps (dictGet kvs "company" (Json.obj []))),
       dictGet kvs "ein" Json.null,
       dictGet kvs "ssn" Json.null,
       dictGet kvs "userAgent" Json.null])
  | _ => .error .attributeError

/-- Post tuple (lines 479-493): columns `api_id, title, body, userId, tags,
reactions`; `tags` is serialized with default `[]` and `reactions` is
normalized (default integer 0 when absent). -/
def postTuple (post : Json) : Except PyError Row :=
  match post with
  | .obj kvs =>
    match normalizeReactions (dictGet kvs "reactions" (Json.num 0)) with
    | .error e => .error e
    | .ok reactions =>
      .ok (dictGet kvs "id" Json.null,
        [dictGet kvs "title" Json.null,
         dictGet kvs "body" Json.null,
         dictGet kvs "userId" Json.null,
         Json.str (dumps (dictGet kvs "tags" (Json.arr []))),
         reactions])
  | _ => .error .attributeError

/-- The per-record loop shared by the three processors: a record without the
`id` key is skipped with a warning (second component counts those warnings);
otherwise its tuple joins the batch. -/
def buildRows (tuple : Json → Except PyError Row) :
    List Json → Except PyError (List Row × Nat)
  | [] => .ok ([], 0)
  | rec :: rest =>
    match membTest rec "id" with
    | .error e => .error e
    | .ok mem =>
      if mem then
        match tuple rec with
        | .error e => .error e
        | .ok t =>
          match buildRows tuple rest with
          | .error e => .error e
          | .ok p => .ok (t :: p.1, p.2)
      else
        match buildRows tuple rest with
        | .error e => .error e
        | .ok p => .ok (p.1, p.2 + 1)

def buildProductRows : List Json → Except PyError (List Row × Nat) :=
  buildRows productTuple

def buildUserRows : List Json → Except PyError (List Row × Nat) :=
  buildRows userTuple

def buildPostRows : List Json → Except PyError (List Row × Nat) :=
  buildRows postTuple

/-! ## Processor bodies (processor.py lines 190-281, 284-416, 419-510)

The three processors are line-for-line copies of one four-stage shape that
differs only in the response array field, the table name and the record
transform; `process_entity_core` is that shape, applied to the already
fetched response.  The observable outcome records the final database, whether
`get_db_connection` was called, which tables the run created, the insert
count, whether the early-return warning fired, and how many records were
skipped for a missing id. -/

structure RunResult where
  db : DB
  connAttempted : Bool
  tablesCreated : List String
  inserted : Nat
  warnedEarly : Bool
  skipped : Nat
  deriving DecidableEq

/-- Outcome of the early return taken when the response is falsy, lacks the
array field, or that field is falsy: a warning, no storage interaction. -/
def earlyRun (db : DB) : RunResult :=
  ⟨db, false, [], 0, true, 0⟩

/-- The shared processor body after the fetch.  `connOk` models
`get_db_connection` failing (`sqlite3.Error`/`OSError`, logged, early
return); `createOk` and `execOk` are the storage oracles of
`init_db_table` and `save_data_to_db`. -/
def process_entity_core (field tableName : String)
    (tuple : Json → Except PyError Row)
    (connOk createOk execOk : Bool) (db : DB) (resp : Option Json) :
    Except PyError RunResult :=
  match resp with
  | none => .ok (earlyRun db)
  | some j =>
    if !truthy j then .ok (earlyRun db)
    else
      match membTest j field with
      | .error e => .error e
      | .ok mem =>
        if !mem then .ok (earlyRun db)
        else
          match subscript j field with
          | .error e => .error e
          | .ok lst =>
            if !truthy lst then .ok (earlyRun db)
            else if !connOk then .ok ⟨db, true, [], 0, false, 0⟩
            else
              let created := !hasTable db tableName
              let initRes := init_db_table createOk db tableName
              if !initRes.2 then .ok ⟨initRes.1, true, [], 0, false, 0⟩
              else
                match iterElems lst with
                | .error e => .error e
                | .ok recs =>
                  match buildRows tuple recs with
                  | .error e => .error e
                  | .ok p =>
                    let saved :=
                      save_data_to_db execOk (getTable initRes.1 tableName) p.1
                    .ok ⟨setTable initRes.1 tableName saved.1, true,
                         if created then [tableName] else [], saved.2, false,
                         p.2⟩

def process_products_core : Bool → Bool → Bool → DB → Option Json →
    Except PyError RunResult :=
  process_entity_core "products" "products" productTuple

def process_users_core : Bool → Bool → Bool → DB → Option Json →
    Except PyError RunResult :=
  process_entity_core "users" "users" userTuple

def process_posts_core : Bool → Bool → Bool → DB → Option Json →
    Except PyError RunResult :=
  process_entity_core "posts" "posts" postTuple

/-- `process_products` (lines 190-281): fetches `products/search` with the
search query and runs the shared body on the result. -/
def process_products (connOk createOk execOk : Bool) (db : DB)
    (net : String → HttpOutcome) (_search_query : String) :
    Except PyError RunResult :=
  process_products_core connOk createOk execOk db
    (fetch_api_data ("https://dummyjson.com/" ++ "products/search")
      (net "products/search")).1

/-- `process_users` (lines 284-416): fetches `users` with limit and skip and
runs the shared body on the result. -/
def process_users (connOk createOk execOk : Bool) (db : DB)
    (net : String → HttpOutcome) (_limit _skip : Int) :
    Except PyError RunResult :=
  process_users_core connOk createOk execOk db
    (fetch_api_data ("https://dummyjson.com/" ++ "users") (net "users")).1

/-- Python truthiness of the `Optional[int]` argument `user_id`. -/
def intTruthy : Option Int → Bool
  | none => false
  | some n => n != 0

/-- Endpoint selection of `process_posts` (lines 428-433): `if user_id:`
chooses the per-user path, so `None` and `0` both select the global
`posts` endpoint. -/
def postsEndpoint (user_id : Option Int) : String :=
  if intTruthy user_id then
    "users/" ++ toString (user_id.getD 0) ++ "/posts"
  else "posts"

/-- `process_posts` (lines 419-510): picks the endpoint from `user_id`,
fetches it with limit and skip, and runs the shared body on the result. -/
def process_posts (connOk createOk execOk : Bool) (db : DB)
    (net : String → HttpOutcome) (_limit _skip : Int)
    (user_id : Option Int) : Except PyError RunResult :=
  process_posts_core connOk createOk execOk db
    (fetch_api_data ("https://dummyjson.com/" ++ postsEndpoint user_id)
      (net (postsEndpoint user_id))).1

/-! ## Inspector value formatting (`view_db.py` lines 21-71)

`format_value` re-parses stored JSON text blobs; `loads` below models
`json.loads` on the fragment of JSON the pipeline stores (numbers are
integer literals, per the header).  The parser runs on fuel bounded by the
input length. -/

def skipWs : List Char → List Char
  | [] => []
  | c :: rest =>
    if c = ' ' ∨ c = Char.ofNat 9 ∨ c = Char.ofNat 10 ∨ c = Char.ofNat 13 then
      skipWs rest
    else c :: rest

/-- Body of a JSON string literal up to the closing quote, decoding the
simple escapes. -/
def parseStrChars : Nat → List Char → Option (List Char × List Char)
  | _, [] => none
  | 0, _ => none
  | fuel + 1, c :: rest =>
    if c = quoteChar then some ([], rest)
    else if c = backslashChar then
      match rest with
      | [] => none
      | e :: rest2 =>
        let dec : Option Char :=
          if e = quoteChar then some quoteChar
          else if e = backslashChar then some backslashChar
          else if e = '/' then some '/'
          else if e = 'n' then some (Char.ofNat 10)
          else if e = 't' then some (Char.ofNat 9)
          else if e = 'r' then some (Char.ofNat 13)
          else none
        match dec with
        | some d => (parseStrChars fuel rest2).map fun p => (d :: p.1, p.2)
        | none => none
    else (parseStrChars fuel rest).map fun p => (c :: p.1, p.2)

def digitsToNat (ds : List Char) : Nat :=
  ds.foldl (fun a c => a * 10 + (c.toNat - 48)) 0

def parseNat (cs : List Char) : Option (Nat × List Char) :=
  let p := cs.span Char.isDigit
  if p.1.isEmpty then none else some (digitsToNat p.1, p.2)

def expectLit (cs : List Char) (lit : List Char) : Option (List Char) :=
  if lit.isPrefixOf cs then some (cs.drop lit.length) else none

mutual

def parseVal : Nat → List Char → Option (Json × List Char)
  | 0, _ => none
  | fuel + 1, cs =>
    match skipWs cs with
    | [] => none
    | c :: rest =>
      if c = quoteChar then
        match parseStrChars rest.length rest with
        | some p => some (.str (String.mk p.1), p.2)
        | none => none
      else if c = Char.ofNat 123 then
        match skipWs rest with
        | [] => none
        | d :: rest2 =>
          if d = Char.ofNat 125 then some (.obj [], rest2)
          else
            match parseObjItems fuel (d :: rest2) with
            | some p => some (.obj p.1, p.2)
            | none => none
      else if c = '[' then
        match skipWs rest with
        | [] => none
        | d :: rest2 =>
          if d = ']' then some (.arr [], rest2)
          else
            match parseArrItems fuel (d :: rest2) with
            | some p => some (.arr p.1, p.2)
            | none => none
      else if c = 't' then
        (expectLit rest ['r', 'u', 'e']).map fun r => (.bool true, r)
      else if c = 'f' then
        (expectLit rest ['a', 'l', 's', 'e']).map fun r => (.bool false, r)
      else if c = 'n' then
        (expectLit rest ['u', 'l', 'l']).map fun r => (.null, r)
      else if c = '-' then
        match parseNat rest with
        | some p => some (.num (-(p.1 : Int)), p.2)
        | none => none
      else if c.isDigit then
        match parseNat (c :: rest) with
        | some p => some (.num (p.1 : Int), p.2)
        | none => none
      else none

def parseArrItems : Nat → List Char → Option (List Json × List Char)
  | 0, _ => none
  | fuel + 1, cs =>
    match parseVal fuel cs with
    | none => none
    | some (v, r1) =>
      match skipWs r1 with
      | [] => none
      | c :: r2 =>
        if c = ',' then
          match parseArrItems fuel r2 with
          | some p => some (v :: p.1, p.2)
          | none => none
        else if c = ']' then some ([v], r2)
        else none

def parseObjItems : Nat → List Char → Option (List (String × Json) × List Char)
  | 0, _ => none
  | fuel + 1, cs =>
    match skipWs cs with
    | [] => none
    | c :: r0 =>
      if c = quoteChar then
        match parseStrChars r0.length r0 with
        | none => none
        | some (kcs, r1) =>
          match skipWs r1 with
          | [] => none
          | d :: r2 =>
            if d = ':' then
              match parseVal fuel r2 with
              | none => none
              | some (v, r3) =>
                match skipWs r3 with
                | [] => none
                | e :: r4 =>
                  if e = ',' then
                    match parseObjItems fuel r4 with
                    | some p => some ((String.mk kcs, v) :: p.1, p.2)
                    | none => none
                  else if e = Char.ofNat 125 then
                    some ([(String.mk kcs, v)], r4)
                  else none
            else none
      else none

end

/-- `json.loads`: parse one JSON value and require only whitespace after it. -/
def loads (s : String) : Option Json :=
  let cs := s.toList
  match parseVal (cs.length + 2) cs with
  | some (j, rest) => if (skipWs rest).isEmpty then some j else none
  | none => none

/-- The column names whose values `format_value` re-parses as JSON. -/
def jsonKeys : List String := ["images", "tags", "hair", "address", "bank", "company"]

/-- `%.2f` formatting of an integer-valued number. -/
def twoDec (n : Int) : String := toString n ++ ".00"

/-- Python `str` of a value as it comes out of the database row (same as
`pyStr`; the stored cells are scalars or text). -/
def cellStr : Json → String := pyStr

/-- Elements of a list joined by `", ".join(data)`: `TypeError` unless every
element is a string. -/
def allStrs : List Json → Option (List String)
  | [] => some []
  | .str s :: rest => (allStrs rest).map fun ss => s :: ss
  | _ => none

/-- The `try` body of `format_value` applied to the parsed data (view_db.py
lines 38-57): `images` lists show the first element plus a remaining count,
`tags` lists are comma-joined (raising `TypeError` on non-string tags,
caught by the caller), other lists print whole; non-empty dicts show the
first three `k: v` pairs plus a hidden count; anything else prints as
`str(data)`. -/
def formatParsed (key : String) (data : Json) : Except PyError String :=
  match data with
  | .arr xs =>
    if key = "images" ∧ xs ≠ [] then
      match xs with
      | [] => .ok (pyRepr (.arr []))
      | [x] => .ok (pyStr x)
      | x :: rest =>
        .ok (pyStr x ++ " (+ еще " ++ toString rest.length ++ ")")
    else if key = "tags" ∧ xs ≠ [] then
      match allStrs xs with
      | some ss => .ok (joinComma ss)
      | none => .error .typeError
    else .ok (pyRepr (.arr xs))
  | .obj kvs =>
    if kvs.isEmpty then .ok (pyRepr (.obj kvs))
    else
      .ok ("\x7b" ++
        joinComma
          ((kvs.take 3).map (fun kv => kv.1 ++ ": " ++ pyStr kv.2) ++
            (if kvs.length > 3 then
              ["... (" ++ toString (kvs.length - 3) ++ " скрыто)"]
            else [])) ++ "\x7d")
  | d => .ok (pyStr d)

/-- `format_value` (view_db.py lines 21-71). `NULL` for `None`; for the six
JSON columns with a truthy value, re-parse and summarize, falling back to
`str(value)` on `json.JSONDecodeError` or `TypeError`; long
`description`/`body` strings are truncated to 47 characters plus `...`;
`price`/`discountPercentage` numbers print with two decimals. -/
def format_value (key : String) (value : Json) : String :=
  match value with
  | .null => "NULL"
  | _ =>
    if jsonKeys.contains key ∧ truthy value then
      match value with
      | .str s =>
        match loads s with
        | some data =>
          match formatParsed key data with
          | .ok r => r
          | .error _ => cellStr value
        | none => cellStr value
      | _ => cellStr value
    else
      match value with
      | .str s =>
        if (key = "description" ∨ key = "body") ∧ s.length > 50 then
          (s.take 47).append "..."
        else s
      | .num n =>
        if key = "price" ∨ key = "discountPercentage" then twoDec n
        else toString n
      | .bool b =>
        if key = "price" ∨ key = "discountPercentage" then
          twoDec (if b then 1 else 0)
        else if b then "True" else "False"
      | v => cellStr v

/-! ## Lemmas about the insert-or-ignore batch -/

/-- Helper: key of `r` occurs in table `t`. -/
def keyMem (t : List Row) (r : Row) : Prop := ∃ q ∈ t, q.1 = r.1

instance (t : List Row) (r : Row) : Decidable (keyMem t r) := by
  unfold keyMem; infer_instance

theorem keyMem_iff_any (t : List Row) (r : Row) :
    keyMem t r ↔ (t.any fun q => q.1 = r.1) = true := by
  simp [keyMem, List.any_eq_true]

theorem save_rows_length (d : List Row) :
    ∀ t : List Row, (save_rows t d).1.length = t.length + (save_rows t d).2 := by
  induction d with
  | nil => intro t; simp [save_rows]
  | cons r rest ih =>
    intro t
    by_cases h : (t.any fun q => q.1 = r.1) = true
    · simp only [save_rows, if_pos h]
      exact ih t
    · simp only [save_rows, if_neg h]
      have := ih (t ++ [r])
      simp only [List.length_append, List.length_cons, List.length_nil] at this
      omega

theorem save_rows_mem_mono (d : List Row) :
    ∀ t : List Row, ∀ q ∈ t, q ∈ (save_rows t d).1 := by
  induction d with
  | nil => intro t q hq; simpa [save_rows] using hq
  | cons r rest ih =>
    intro t q hq
    by_cases h : (t.any fun p => p.1 = r.1) = true
    · simp only [save_rows, if_pos h]
      exact ih t q hq
    · simp only [save_rows, if_neg h]
      exact ih (t ++ [r]) q (List.mem_append_left _ hq)

theorem save_rows_key_present (d : List Row) :
    ∀ t : List Row, ∀ r ∈ d, keyMem (save_rows t d).1 r := by
  induction d with
  | nil => intro t r hr; cases hr
  | cons r0 rest ih =>
    intro t r hr
    by_cases h : (t.any fun q => q.1 = r0.1) = true
    · simp only [save_rows, if_pos h]
      rcases List.mem_cons.mp hr with rfl | hr'
      · rcases (keyMem_iff_any t r).mpr h with ⟨q, hq, hqk⟩
        exact ⟨q, save_rows_mem_mono rest t q hq, hqk⟩
      · exact ih t r hr'
    · simp only [save_rows, if_neg h]
      rcases List.mem_cons.mp hr with rfl | hr'
      · exact ⟨r, save_rows_mem_mono rest (t ++ [r])
          r (List.mem_append_right _ (List.mem_singleton.mpr rfl)), rfl⟩
      · exact ih (t ++ [r0]) r hr'

theorem save_rows_noop (d : List Row) :
    ∀ t : List Row, (∀ r ∈ d, keyMem t r) → save_rows t d = (t, 0) := by
  induction d with
  | nil => intro t _; rfl
  | cons r rest ih =>
    intro t hall
    have h : (t.any fun q => q.1 = r.1) = true :=
      (keyMem_iff_any t r).mp (hall r (List.mem_cons_self r rest))
    simp only [save_rows, if_pos h]
    exact ih t fun r' hr' => hall r' (List.mem_cons_of_mem _ hr')

theorem save_rows_nodup (d : List Row) :
    ∀ t : List Row, (t.map fun q => q.1).Nodup →
      ((save_rows t d).1.map fun q => q.1).Nodup := by
  induction d with
  | nil => intro t h; simpa [save_rows] using h
  | cons r rest ih =>
    intro t h
    by_cases hmem : (t.any fun q => q.1 = r.1) = true
    · simp only [save_rows, if_pos hmem]
      exact ih t h
    · simp only [save_rows, if_neg hmem]
      apply ih
      simp only [List.map_append, List.map_cons, List.map_nil]
      rw [List.nodup_append]
      refine ⟨h, List.nodup_singleton _, ?_⟩
      intro a ha hb
      rcases List.mem_singleton.mp hb with rfl
      rcases List.mem_map.mp ha with ⟨q, hq, hqk⟩
      exact hmem ((keyMem_iff_any t r).mp ⟨q, hq, hqk⟩)

/-- C1: `save_data_to_db` inserts with insert-or-ignore keyed on `api_id`
(the first tuple component): the returned count is exactly the number of
rows newly added to the table, re-running the same batch adds nothing and
returns count 0 (so the row count after two runs equals the row count after
one), and a table with pairwise distinct primary keys keeps them distinct. -/
theorem save_data_idempotent_count (t : List Row) (data : List Row) :
    (save_data_to_db true t data).1.length
        = t.length + (save_data_to_db true t data).2
      ∧ save_data_to_db true (save_data_to_db true t data).1 data
          = ((save_data_to_db true t data).1, 0)
      ∧ ((t.map fun q => q.1).Nodup →
          (((save_data_to_db true t data).1).map fun q => q.1).Nodup) := by
  by_cases hd : data.isEmpty
  · simp [save_data_to_db, hd]
  · simp only [save_data_to_db, hd, if_false, if_true]
    refine ⟨save_rows_length data t, ?_, save_rows_nodup data t⟩
    exact save_rows_noop data (save_rows t data).1
      fun r hr => save_rows_key_present data t r hr

/-- Witness for C1 at a concrete table and batch containing a duplicate key. -/
theorem save_data_idempotent_count_witness :
    ((([((Json.num 9 : Json), ([] : List Json))] : List Row).map
        fun q => q.1).Nodup) ∧
      (((save_data_to_db true [((Json.num 9 : Json), ([] : List Json))]
          [((Json.num 1 : Json), [Json.str "a"]),
           ((Json.num 1 : Json), [Json.str "b"]),
           ((Json.num 2 : Json), [Json.str "c"])]).1).map
        fun q => q.1).Nodup := by
  refine ⟨by decide, ?_⟩
  exact (save_data_idempotent_count
    [((Json.num 9 : Json), ([] : List Json))]
    [((Json.num 1 : Json), [Json.str "a"]),
     ((Json.num 1 : Json), [Json.str "b"]),
     ((Json.num 2 : Json), [Json.str "c"])]).2.2 (by decide)

/-- C7: `init_db_table` checks existence by name and creates only when
absent: a successful first call returns `True` and leaves the table present,
and a second call on the same name is a no-op that returns `True` whatever
the creation oracle says, so each table is created at most once. -/
theorem init_db_table_idempotent (db : DB) (name : String) (retryOk : Bool) :
    (init_db_table true db name).2 = true
      ∧ hasTable (init_db_table true db name).1 name = true
      ∧ init_db_table retryOk (init_db_table true db name).1 name
          = ((init_db_table true db name).1, true) := by
  by_cases h : hasTable db name = true
  · refine ⟨by simp [init_db_table, h], by simp [init_db_table, h], ?_⟩
    simp [init_db_table, h]
  · have hpresent : hasTable (db ++ [(name, [])]) name = true := by
      simp [hasTable, List.any_append]
    refine ⟨by simp [init_db_table, h], ?_, ?_⟩
    · simpa [init_db_table, h] using hpresent
    · simp [init_db_table, h, hpresent]

/-- C9: the owning-user filter of `process_posts` is tested by truthiness:
`user_id = 0` selects the global `posts` endpoint exactly like `None`, and
the whole run with `user_id = 0` is indistinguishable from a run with no
filter; only a nonzero id selects `users/{id}/posts`. -/
theorem process_posts_user_id_zero :
    postsEndpoint (some 0) = "posts"
      ∧ postsEndpoint none = "posts"
      ∧ (∀ u : Int, u ≠ 0 →
          postsEndpoint (some u) = "users/" ++ toString u ++ "/posts")
      ∧ ∀ (connOk createOk execOk : Bool) (db : DB)
          (net : String → HttpOutcome) (limit skip : Int),
          process_posts connOk createOk execOk db net limit skip (some 0)
            = process_posts connOk createOk execOk db net limit skip none := by
  refine ⟨rfl, rfl, ?_, ?_⟩
  · intro u hu
    have ht : intTruthy (some u) = true := by
      simp [intTruthy, bne_iff_ne, hu]
    simp [postsEndpoint, ht]
  · intro connOk createOk execOk db net limit skip
    rfl

/-- Witness for C9 at the concrete nonzero id 7. -/
theorem process_posts_user_id_zero_witness :
    (7 : Int) ≠ 0 ∧ postsEndpoint (some 7) = "users/7/posts" :=
  ⟨by decide, process_posts_user_id_zero.2.2.1 7 (by decide)⟩

/-! ## C5: the failure kinds of `fetch_api_data` -/

theorem string_data_append (a b : String) : (a ++ b).data = a.data ++ b.data := by
  cases a; cases b; rfl

theorem string_ne_of_head_ne (a b : String)
    (h : a.data.head? ≠ b.data.head?) : a ≠ b := by
  intro e; exact h (by rw [e])

theorem head_append_left {α : Type} (l₁ l₂ : List α) (h : l₁ ≠ []) :
    (l₁ ++ l₂).head? = l₁.head? := by
  cases l₁ with
  | nil => exact absurd rfl h
  | cons a t => rfl

/-- C5 counterexample: the claim says the three failure kinds come back as
distinct typed values, but `fetch_api_data` returns the very same `None` for
a timeout, a network failure and a decode failure at this concrete URL, so
the caller cannot tell them apart. -/
theorem fetch_api_data_collapses_failures :
    (fetch_api_data "https://dummyjson.com/posts" HttpOutcome.timeout).1 = none
      ∧ (fetch_api_data "https://dummyjson.com/posts"
          (HttpOutcome.networkError "connection refused")).1 = none
      ∧ (fetch_api_data "https://dummyjson.com/posts"
          (HttpOutcome.decodeError "Expecting value: line 1 column 1")).1
            = none
      ∧ (fetch_api_data "https://dummyjson.com/posts" HttpOutcome.timeout).1
          = (fetch_api_data "https://dummyjson.com/posts"
              (HttpOutcome.networkError "connection refused")).1 :=
  ⟨rfl, rfl, rfl, rfl⟩

/-- C5 amended: `fetch_api_data` returns the parsed body on success and
`None` on each of the three failure kinds, so the caller can distinguish
failure from success but not the failure kinds from one another; the kinds
are distinguished only by the error log line, whose text differs for
timeout, network failure and decode failure. -/
theorem fetch_api_data_failure_modes (url e1 e2 : String) (status : Nat)
    (body : Json) :
    (fetch_api_data url (.success status body)).1 = some body
      ∧ (fetch_api_data url .timeout).1 = none
      ∧ (fetch_api_data url (.networkError e1)).1 = none
      ∧ (fetch_api_data url (.decodeError e2)).1 = none
      ∧ (fetch_api_data url .timeout).2 ≠ (fetch_api_data url (.networkError e1)).2
      ∧ (fetch_api_data url .timeout).2 ≠ (fetch_api_data url (.decodeError e2)).2
      ∧ (fetch_api_data url (.networkError e1)).2
          ≠ (fetch_api_data url (.decodeError e2)).2 := by
  refine ⟨rfl, rfl, rfl, rfl, ?_, ?_, ?_⟩ <;>
  · apply string_ne_of_head_ne
    simp only [fetch_api_data, string_data_append, List.append_assoc,
      List.cons_append, List.head?_cons]
    decide

/-! ## C2: records without an `id` are skipped -/

theorem buildRows_filter_id (tuple : Json → Except PyError Row)
    (recs : List (List (String × Json))) :
    buildRows tuple (recs.map Json.obj)
      = Except.map
          (fun p => (p.1,
            p.2 + (recs.filter fun r => (alookup r "id").isNone).length))
          (buildRows tuple
            ((recs.filter fun r => (alookup r "id").isSome).map Json.obj)) := by
  induction recs with
  | nil => rfl
  | cons r rest ih =>
    cases halook : alookup r "id" with
    | some v =>
      simp only [List.map_cons, List.filter_cons, halook, Option.isSome_some,
        Option.isNone_some, if_true, Bool.false_eq_true, if_false,
        buildRows, membTest]
      cases htuple : tuple (Json.obj r) with
      | error e => simp [Except.map, htuple]
      | ok t =>
        rw [ih]
        cases hrec : buildRows tuple
            ((rest.filter fun q => (alookup q "id").isSome).map Json.obj) with
        | error e => simp [Except.map, htuple, hrec]
        | ok p => simp [Except.map, htuple, hrec]
    | none =>
      simp only [List.map_cons, List.filter_cons, halook, Option.isSome_none,
        Option.isNone_none, if_true, Bool.false_eq_true, if_false,
        buildRows, membTest]
      rw [ih]
      cases hrec : buildRows tuple
          ((rest.filter fun q => (alookup q "id").isSome).map Json.obj) with
      | error e => simp [Except.map, hrec]
      | ok p =>
        simp [Except.map, hrec]
        omega

/-- C2: in all three processors a fetched record lacking the `id` key is
skipped — it contributes exactly one warning and no tuple to the batch
passed to storage — while the remaining records are transformed exactly as
if the invalid records were not there; consequently the insert count of the
valid records is unchanged by the presence of invalid ones. -/
theorem processors_skip_missing_id (recs : List (List (String × Json))) :
    (buildProductRows (recs.map Json.obj)
        = Except.map
            (fun p => (p.1,
              p.2 + (recs.filter fun r => (alookup r "id").isNone).length))
            (buildProductRows
              ((recs.filter fun r => (alookup r "id").isSome).map Json.obj)))
      ∧ (buildUserRows (recs.map Json.obj)
          = Except.map
              (fun p => (p.1,
                p.2 + (recs.filter fun r => (alookup r "id").isNone).length))
              (buildUserRows
                ((recs.filter fun r => (alookup r "id").isSome).map Json.obj)))
      ∧ (buildPostRows (recs.map Json.obj)
          = Except.map
              (fun p => (p.1,
                p.2 + (recs.filter fun r => (alookup r "id").isNone).length))
              (buildPostRows
                ((recs.filter fun r => (alookup r "id").isSome).map Json.obj)))
      ∧ ∀ (execOk : Bool) (t : List Row) (rows : List Row) (k : Nat)
          (rows' : List Row) (k' : Nat),
          buildPostRows (recs.map Json.obj) = .ok (rows, k) →
          buildPostRows
              ((recs.filter fun r => (alookup r "id").isSome).map Json.obj)
            = .ok (rows', k') →
          rows = rows'
            ∧ (save_data_to_db execOk t rows).2
                = (save_data_to_db execOk t rows').2 := by
  refine ⟨buildRows_filter_id productTuple recs,
    buildRows_filter_id userTuple recs,
    buildRows_filter_id postTuple recs, ?_⟩
  intro execOk t rows k rows' k' hfull hvalid
  have h := buildRows_filter_id postTuple recs
  rw [show buildRows postTuple = buildPostRows from rfl, hvalid, hfull] at h
  simp only [Except.map] at h
  obtain ⟨hr, -⟩ := Prod.mk.injEq .. ▸ Except.ok.injEq .. ▸ h
  exact ⟨hr, by rw [hr]⟩

/-- Witness for C2: a batch of one valid and one id-less post record. -/
theorem processors_skip_missing_id_witness :
    [((Json.num 1 : Json),
        [Json.null, Json.null, Json.null, Json.str "[]", Json.num 0])]
      = [((Json.num 1 : Json),
          [Json.null, Json.null, Json.null, Json.str "[]", Json.num 0])]
    ∧ (save_data_to_db true []
        [((Json.num 1 : Json),
          [Json.null, Json.null, Json.null, Json.str "[]", Json.num 0])]).2
      = (save_data_to_db true []
          [((Json.num 1 : Json),
            [Json.null, Json.null, Json.null, Json.str "[]", Json.num 0])]).2 :=
  (processors_skip_missing_id
      [[("id", Json.num 1)], [("title", Json.str "no id here")]]).2.2.2
    true [] _ 1 _ 0 (by decide) (by decide)

/-- C3: the `reactions` cell stored by `process_posts` for a record with an
`id` is 0 when the field is absent, the value itself when it is a scalar
(in particular a bare integer passes through unchanged), and the sum of the
dict values when it is an object (e.g. `likes: 5, dislikes: 2` stores 7).
The cell sits at index 4 of the non-key columns `title, body, userId, tags,
reactions`. -/
theorem post_reactions_normalization (kvs : List (String × Json)) :
    (alookup kvs "reactions" = none →
      (postTuple (.obj kvs)).map (fun t => t.2.get? 4)
        = .ok (some (Json.num 0)))
    ∧ (∀ n : Int, alookup kvs "reactions" = some (.num n) →
        (postTuple (.obj kvs)).map (fun t => t.2.get? 4)
          = .ok (some (Json.num n)))
    ∧ (∀ v, alookup kvs "reactions" = some v → (∀ rs, v ≠ Json.obj rs) →
        (postTuple (.obj kvs)).map (fun t => t.2.get? 4) = .ok (some v))
    ∧ (∀ rs m, alookup kvs "reactions" = some (.obj rs) →
        sumNums (rs.map fun kv => kv.2) = some m →
        (postTuple (.obj kvs)).map (fun t => t.2.get? 4)
          = .ok (some (Json.num m))) := by
  refine ⟨?_, ?_, ?_, ?_⟩
  · intro h
    simp [postTuple, dictGet, h, normalizeReactions, Except.map]
  · intro n h
    simp [postTuple, dictGet, h, normalizeReactions, Except.map]
  · intro v hv hnot
    cases v with
    | obj rs => exact absurd rfl (hnot rs)
    | null => simp [postTuple, dictGet, hv, normalizeReactions, Except.map]
    | bool b => simp [postTuple, dictGet, hv, normalizeReactions, Except.map]
    | num n => simp [postTuple, dictGet, hv, normalizeReactions, Except.map]
    | str s => simp [postTuple, dictGet, hv, normalizeReactions, Except.map]
    | arr xs => simp [postTuple, dictGet, hv, normalizeReactions, Except.map]
  · intro rs m hv hsum
    simp [postTuple, dictGet, hv, normalizeReactions, hsum, Except.map]

/-- Witness for C3 at the spec's own examples: reactions absent, a bare
integer 7, and the object with 5 likes and 2 dislikes summing to 7. -/
theorem post_reactions_normalization_witness :
    ((postTuple (.obj [("id", Json.num 1)])).map (fun t => t.2.get? 4)
        = .ok (some (Json.num 0)))
      ∧ ((postTuple (.obj [("id", Json.num 1),
            ("reactions", Json.num 7)])).map (fun t => t.2.get? 4)
          = .ok (some (Json.num 7)))
      ∧ ((postTuple (.obj [("id", Json.num 1),
            ("reactions", Json.obj [("likes", Json.num 5),
                                    ("dislikes", Json.num 2)])])).map
            (fun t => t.2.get? 4)
          = .ok (some (Json.num 7))) :=
  ⟨(post_reactions_normalization [("id", Json.num 1)]).1 (by decide),
   (post_reactions_normalization
      [("id", Json.num 1), ("reactions", Json.num 7)]).2.1 7 (by decide),
   (post_reactions_normalization
      [("id", Json.num 1),
       ("reactions", Json.obj [("likes", Json.num 5),
                               ("dislikes", Json.num 2)])]).2.2.2
     [("likes", Json.num 5), ("dislikes", Json.num 2)] 7 (by decide)
     (by decide)⟩

/-! ## C10: serialized nested-field columns are never NULL -/

theorem buildRows_mem_prop (tuple : Json → Except PyError Row)
    (P : Row → Prop) (htup : ∀ rec t, tuple rec = .ok t → P t) :
    ∀ (recs : List Json) (out : List Row × Nat),
      buildRows tuple recs = .ok out → ∀ r ∈ out.1, P r := by
  intro recs
  induction recs with
  | nil =>
    intro out h r hr
    simp only [buildRows] at h
    injection h with h'
    subst h'
    cases hr
  | cons rec rest ih =>
    intro out h r hr
    simp only [buildRows] at h
    split at h
    · exact Except.noConfusion h
    · rename_i mem hmem
      split at h
      · split at h
        · exact Except.noConfusion h
        · rename_i t0 ht0
          split at h
          · exact Except.noConfusion h
          · rename_i p hp
            injection h with h'
            subst h'
            rcases List.mem_cons.mp hr with rfl | hr'
            · exact htup rec r ht0
            · exact ih p hp r hr'
      · split at h
        · exact Except.noConfusion h
        · rename_i p hp
          injection h with h'
          subst h'
          exact ih p hp r hr

theorem productTuple_images_text (rec : Json) (t : Row)
    (h : productTuple rec = .ok t) :
    ∃ s, t.2.get? 9 = some (Json.str s) := by
  cases rec with
  | obj kvs =>
    simp only [productTuple] at h
    injection h with h'
    subst h'
    exact ⟨_, rfl⟩
  | null => exact Except.noConfusion h
  | bool b => exact Except.noConfusion h
  | num n => exact Except.noConfusion h
  | str s => exact Except.noConfusion h
  | arr xs => exact Except.noConfusion h

theorem userTuple_serialized_text (rec : Json) (t : Row)
    (h : userTuple rec = .ok t) :
    (∃ s, t.2.get? 15 = some (Json.str s))
      ∧ (∃ s, t.2.get? 18 = some (Json.str s))
      ∧ (∃ s, t.2.get? 21 = some (Json.str s))
      ∧ (∃ s, t.2.get? 22 = some (Json.str s)) := by
  cases rec with
  | obj kvs =>
    simp only [userTuple] at h
    injection h with h'
    subst h'
    exact ⟨⟨_, rfl⟩, ⟨_, rfl⟩, ⟨_, rfl⟩, ⟨_, rfl⟩⟩
  | null => exact Except.noConfusion h
  | bool b => exact Except.noConfusion h
  | num n => exact Except.noConfusion h
  | str s => exact Except.noConfusion h
  | arr xs => exact Except.noConfusion h

theorem postTuple_tags_text (rec : Json) (t : Row)
    (h : postTuple rec = .ok t) :
    ∃ s, t.2.get? 3 = some (Json.str s) := by
  cases rec with
  | obj kvs =>
    simp only [postTuple] at h
    split at h
    · exact Except.noConfusion h
    · injection h with h'
      subst h'
      exact ⟨_, rfl⟩
  | null => exact Except.noConfusion h
  | bool b => exact Except.noConfusion h
  | num n => exact Except.noConfusion h
  | str s => exact Except.noConfusion h
  | arr xs => exact Except.noConfusion h

/-- C10: in every row any processor passes to storage, the flattened
nested-field columns hold a text cell (the `json.dumps` of the field or of
its `[]`/dict default), never NULL: `images` is non-key column 9 of
products; `hair`, `address`, `bank`, `company` are non-key columns 15, 18,
21, 22 of users; `tags` is non-key column 3 of posts. -/
theorem processors_store_serialized_text :
    (∀ recs out, buildProductRows recs = .ok out →
        ∀ r ∈ out.1, ∃ s, r.2.get? 9 = some (Json.str s))
      ∧ (∀ recs out, buildUserRows recs = .ok out →
          ∀ r ∈ out.1,
            (∃ s, r.2.get? 15 = some (Json.str s))
              ∧ (∃ s, r.2.get? 18 = some (Json.str s))
              ∧ (∃ s, r.2.get? 21 = some (Json.str s))
              ∧ (∃ s, r.2.get? 22 = some (Json.str s)))
      ∧ (∀ recs out, buildPostRows recs = .ok out →
          ∀ r ∈ out.1, ∃ s, r.2.get? 3 = some (Json.str s)) :=
  ⟨buildRows_mem_prop productTuple _ productTuple_images_text,
   buildRows_mem_prop userTuple _ userTuple_serialized_text,
   buildRows_mem_prop postTuple _ postTuple_tags_text⟩

/-- Witness for C10: one concrete record per entity, with every nested field
absent so the defaults are serialized. -/
theorem processors_store_serialized_text_witness :
    (∃ s, ((Json.num 5 : Json),
        [Json.null, Json.null, Json.null, Json.null, Json.null, Json.null,
         Json.null, Json.null, Json.null,
         Json.str "[]"]).2.get? 9 = some (Json.str s))
      ∧ (∃ s, ((Json.num 6 : Json),
          [Json.null, Json.null, Json.null, Json.null, Json.null, Json.null,
           Json.null, Json.null, Json.null, Json.null, Json.null, Json.null,
           Json.null, Json.null, Json.null, Json.str "\x7b\x7d", Json.null,
           Json.null, Json.str "\x7b\x7d", Json.null, Json.null,
           Json.str "\x7b\x7d", Json.str "\x7b\x7d", Json.null, Json.null,
           Json.null]).2.get? 15 = some (Json.str s))
      ∧ (∃ s, ((Json.num 7 : Json),
          [Json.null, Json.null, Json.null, Json.str "[]",
           Json.num 0]).2.get? 3 = some (Json.str s)) := by
  refine ⟨?_, ?_, ?_⟩
  · exact processors_store_serialized_text.1 [Json.obj [("id", Json.num 5)]]
      ([((Json.num 5 : Json),
        [Json.null, Json.null, Json.null, Json.null, Json.null, Json.null,
         Json.null, Json.null, Json.null, Json.str "[]"])], 0)
      (by decide) _ (by decide)
  · exact (processors_store_serialized_text.2.1 [Json.obj [("id", Json.num 6)]]
      ([((Json.num 6 : Json),
        [Json.null, Json.null, Json.null, Json.null, Json.null, Json.null,
         Json.null, Json.null, Json.null, Json.null, Json.null, Json.null,
         Json.null, Json.null, Json.null, Json.str "\x7b\x7d", Json.null,
         Json.null, Json.str "\x7b\x7d", Json.null, Json.null,
         Json.str "\x7b\x7d", Json.str "\x7b\x7d", Json.null, Json.null,
         Json.null])], 0)
      (by decide) _ (by decide)).1
  · exact processors_store_serialized_text.2.2 [Json.obj [("id", Json.num 7)]]
      ([((Json.num 7 : Json),
        [Json.null, Json.null, Json.null, Json.str "[]", Json.num 0])], 0)
      (by decide) _ (by decide)

/-! ## C4: malformed or empty responses return before any storage access -/

/-- The early-return condition of the processors (e.g. processor.py line
203): the fetch failed, or the response object is falsy, or it lacks the
expected array field, or that field is falsy (in particular the empty
array).  For a response that is not a JSON object the membership test
raises instead, so such responses are not part of this condition. -/
def badShape (field : String) : Option Json → Bool
  | none => true
  | some j =>
    if !truthy j then true
    else
      match j with
      | .obj kvs =>
        match alookup kvs field with
        | none => true
        | some v => !truthy v
      | _ => false

theorem process_core_early_return (field tableName : String)
    (tuple : Json → Except PyError Row) (connOk createOk execOk : Bool)
    (db : DB) (resp : Option Json) (h : badShape field resp = true) :
    process_entity_core field tableName tuple connOk createOk execOk db resp
      = .ok (earlyRun db) := by
  cases resp with
  | none => rfl
  | some j =>
    by_cases ht : truthy j = true
    · cases j with
      | obj kvs =>
        cases halook : alookup kvs field with
        | none =>
          simp [process_entity_core, ht, membTest, halook]
        | some v =>
          have hv : truthy v = false := by
            simp only [badShape, ht, halook, Bool.not_true, Bool.false_eq_true,
              if_false] at h
            simpa using h
          simp [process_entity_core, ht, membTest, subscript, halook, hv]
      | null => simp [truthy] at ht
      | bool b => simp [badShape, ht] at h
      | num n => simp [badShape, ht] at h
      | str s => simp [badShape, ht] at h
      | arr xs => simp [badShape, ht] at h
    · have ht' : truthy j = false := by simpa using ht
      simp [process_entity_core, ht']

/-- C4: whenever the response is missing, falsy, lacks its array field, or
has a falsy (e.g. empty) array — such as `products: []` — each processor
returns right after the warning, before any storage interaction: the run
never calls `get_db_connection`, creates no table, inserts zero rows, and
leaves the database exactly as it was. -/
theorem processors_early_return_no_storage (connOk createOk execOk : Bool)
    (db : DB) (resp : Option Json) :
    earlyRun db = ⟨db, false, [], 0, true, 0⟩
      ∧ (badShape "products" resp = true →
          process_products_core connOk createOk execOk db resp
            = .ok (earlyRun db))
      ∧ (badShape "users" resp = true →
          process_users_core connOk createOk execOk db resp
            = .ok (earlyRun db))
      ∧ (badShape "posts" resp = true →
          process_posts_core connOk createOk execOk db resp
            = .ok (earlyRun db)) :=
  ⟨rfl,
   process_core_early_return "products" "products" productTuple
     connOk createOk execOk db resp,
   process_core_early_return "users" "users" userTuple
     connOk createOk execOk db resp,
   process_core_early_return "posts" "posts" postTuple
     connOk createOk execOk db resp⟩

/-- Witness for C4: the spec's `products: []` scenario on a database
containing an unrelated table. -/
theorem processors_early_return_no_storage_witness :
    badShape "products" (some (Json.obj [("products", Json.arr [])])) = true
      ∧ process_products_core true true true [("users", [])]
          (some (Json.obj [("products", Json.arr [])]))
        = .ok (earlyRun [("users", [])]) :=
  ⟨by decide,
   (processors_early_return_no_storage true true true [("users", [])]
      (some (Json.obj [("products", Json.arr [])]))).2.1 (by decide)⟩

/-! ## C6: exception behaviour of the processors -/

def isObjRec : Json → Bool
  | .obj _ => true
  | _ => false

/-- A post record the reactions handling cannot raise on: a dict whose
`reactions` value, if it is itself a dict, has only numeric (or boolean)
values, so that `sum(reactions.values())` is defined. -/
def wfPostRec : Json → Bool
  | .obj kvs =>
    (match alookup kvs "reactions" with
     | some (.obj rs) => rs.all fun kv => (numVal kv.2).isSome
     | _ => true)
  | _ => false

/-- Responses on which the processor body cannot raise: the fetch failed, or
the response is falsy, or it is a JSON object whose array field is absent,
falsy, or an array of well-formed records. -/
def wfResp (field : String) (recOk : Json → Bool) : Option Json → Bool
  | none => true
  | some j =>
    if !truthy j then true
    else
      match j with
      | .obj kvs =>
        (match alookup kvs field with
         | none => true
         | some v =>
           if !truthy v then true
           else
             match v with
             | .arr recs => recs.all recOk
             | _ => false)
      | _ => false

def exceptIsOk {e a : Type} : Except e a → Bool
  | .ok _ => true
  | .error _ => false

theorem exists_ok_of_isOk {e a : Type} {x : Except e a}
    (h : exceptIsOk x = true) : ∃ t, x = .ok t := by
  cases x with
  | ok t => exact ⟨t, rfl⟩
  | error err => exact absurd h (by simp [exceptIsOk])

theorem sumNums_isSome_of_all (l : List Json)
    (h : ∀ v ∈ l, (numVal v).isSome = true) : ∃ m, sumNums l = some m := by
  induction l with
  | nil => exact ⟨0, rfl⟩
  | cons v rest ih =>
    obtain ⟨a, ha⟩ := Option.isSome_iff_exists.mp (h v (List.mem_cons_self v rest))
    obtain ⟨m, hm⟩ := ih fun w hw => h w (List.mem_cons_of_mem _ hw)
    exact ⟨a + m, by simp [sumNums, ha, hm]⟩

theorem postTuple_ok_of_wf (rec : Json) (h : wfPostRec rec = true) :
    ∃ t, postTuple rec = .ok t := by
  cases rec with
  | obj kvs =>
    cases halook : alookup kvs "reactions" with
    | none =>
      exact exists_ok_of_isOk
        (by simp [postTuple, dictGet, halook, normalizeReactions, exceptIsOk])
    | some v =>
      cases v with
      | obj rs =>
        have hall : rs.all (fun kv => (numVal kv.2).isSome) = true := by
          simpa [wfPostRec, halook] using h
        obtain ⟨m, hm⟩ := sumNums_isSome_of_all (rs.map fun kv => kv.2)
          (by
            intro w hw
            rcases List.mem_map.mp hw with ⟨kv, hkv, rfl⟩
            exact List.all_eq_true.mp hall kv hkv)
        exact exists_ok_of_isOk
          (by simp [postTuple, dictGet, halook, normalizeReactions, hm,
            exceptIsOk])
      | null =>
        exact exists_ok_of_isOk
          (by simp [postTuple, dictGet, halook, normalizeReactions, exceptIsOk])
      | bool b =>
        exact exists_ok_of_isOk
          (by simp [postTuple, dictGet, halook, normalizeReactions, exceptIsOk])
      | num n =>
        exact exists_ok_of_isOk
          (by simp [postTuple, dictGet, halook, normalizeReactions, exceptIsOk])
      | str s =>
        exact exists_ok_of_isOk
          (by simp [postTuple, dictGet, halook, normalizeReactions, exceptIsOk])
      | arr xs =>
        exact exists_ok_of_isOk
          (by simp [postTuple, dictGet, halook, normalizeReactions, exceptIsOk])
  | null => exact absurd h (by simp [wfPostRec])
  | bool b => exact absurd h (by simp [wfPostRec])
  | num n => exact absurd h (by simp [wfPostRec])
  | str s => exact absurd h (by simp [wfPostRec])
  | arr xs => exact absurd h (by simp [wfPostRec])

theorem buildRows_ok_of_wf (tuple : Json → Except PyError Row)
    (recOk : Json → Bool)
    (hobj : ∀ rec, recOk rec = true → isObjRec rec = true)
    (htup : ∀ rec, recOk rec = true → ∃ t, tuple rec = .ok t) :
    ∀ recs : List Json, recs.all recOk = true →
      ∃ out, buildRows tuple recs = .ok out := by
  intro recs
  induction recs with
  | nil => exact fun _ => ⟨_, rfl⟩
  | cons rec rest ih =>
    intro hall
    have hrec : recOk rec = true :=
      List.all_eq_true.mp hall rec (List.mem_cons_self rec rest)
    have hrest : rest.all recOk = true :=
      List.all_eq_true.mpr fun r hr =>
        List.all_eq_true.mp hall r (List.mem_cons_of_mem _ hr)
    obtain ⟨kvs, rfl⟩ : ∃ kvs, rec = Json.obj kvs := by
      cases rec <;> first
        | exact ⟨_, rfl⟩
        | exact absurd (hobj _ hrec) (by simp [isObjRec])
    obtain ⟨out, hout⟩ := ih hrest
    obtain ⟨t, ht⟩ := htup _ hrec
    by_cases hmem : (alookup kvs "id").isSome = true
    · exact exists_ok_of_isOk
        (by simp [buildRows, membTest, hmem, ht, hout, exceptIsOk])
    · have hmem' : (alookup kvs "id").isSome = false := by simpa using hmem
      exact exists_ok_of_isOk
        (by simp [buildRows, membTest, hmem', hout, exceptIsOk])

theorem process_core_no_raise (field tableName : String)
    (tuple : Json → Except PyError Row) (recOk : Json → Bool)
    (hobj : ∀ rec, recOk rec = true → isObjRec rec = true)
    (htup : ∀ rec, recOk rec = true → ∃ t, tuple rec = .ok t)
    (connOk createOk execOk : Bool) (db : DB) (resp : Option Json)
    (h : wfResp field recOk resp = true) :
    ∃ r, process_entity_core field tableName tuple connOk createOk execOk db
          resp = .ok r := by
  cases resp with
  | none => exact ⟨_, rfl⟩
  | some j =>
    by_cases ht : truthy j = true
    · cases j with
      | obj kvs =>
        cases halook : alookup kvs field with
        | none =>
          exact exists_ok_of_isOk
            (by simp [process_entity_core, ht, membTest, halook, exceptIsOk])
        | some v =>
          by_cases htv : truthy v = true
          · cases v with
            | arr recs =>
              have hall : recs.all recOk = true := by
                simpa [wfResp, ht, halook, htv] using h
              obtain ⟨out, hout⟩ :=
                buildRows_ok_of_wf tuple recOk hobj htup recs hall
              simp only [process_entity_core, ht, membTest, halook, subscript,
                iterElems, hout, Option.getD_some, Option.isSome_some,
                Bool.not_true, Bool.false_eq_true, if_false, htv]
              split
              · exact ⟨_, rfl⟩
              · split
                · exact ⟨_, rfl⟩
                · exact ⟨_, rfl⟩
            | null => exact absurd htv (by simp [truthy])
            | bool b =>
              exact absurd h (by simp [wfResp, ht, halook, htv])
            | num n =>
              exact absurd h (by simp [wfResp, ht, halook, htv])
            | str s =>
              exact absurd h (by simp [wfResp, ht, halook, htv])
            | obj rs =>
              exact absurd h (by simp [wfResp, ht, halook, htv])
          · have htv' : truthy v = false := by simpa using htv
            exact exists_ok_of_isOk (by
              simp [process_entity_core, ht, membTest, halook, subscript, htv',
                exceptIsOk])
      | null => exact absurd ht (by simp [truthy])
      | bool b => exact absurd h (by simp [wfResp, ht])
      | num n => exact absurd h (by simp [wfResp, ht])
      | str s => exact absurd h (by simp [wfResp, ht])
      | arr xs => exact absurd h (by simp [wfResp, ht])
    · have ht' : truthy j = false := by simpa using ht
      exact exists_ok_of_isOk (by simp [process_entity_core, ht', exceptIsOk])

theorem productTuple_ok_of_obj (rec : Json) (h : isObjRec rec = true) :
    ∃ t, productTuple rec = .ok t := by
  cases rec with
  | obj kvs => exact ⟨_, rfl⟩
  | null => exact absurd h (by simp [isObjRec])
  | bool b => exact absurd h (by simp [isObjRec])
  | num n => exact absurd h (by simp [isObjRec])
  | str s => exact absurd h (by simp [isObjRec])
  | arr xs => exact absurd h (by simp [isObjRec])

theorem userTuple_ok_of_obj (rec : Json) (h : isObjRec rec = true) :
    ∃ t, userTuple rec = .ok t := by
  cases rec with
  | obj kvs => exact ⟨_, rfl⟩
  | null => exact absurd h (by simp [isObjRec])
  | bool b => exact absurd h (by simp [isObjRec])
  | num n => exact absurd h (by simp [isObjRec])
  | str s => exact absurd h (by simp [isObjRec])
  | arr xs => exact absurd h (by simp [isObjRec])

theorem wfPostRec_isObj (rec : Json) (h : wfPostRec rec = true) :
    isObjRec rec = true := by
  cases rec <;> simp_all [wfPostRec, isObjRec]

/-- C6 counterexample: the claim says the processors never raise for any
response shape, but a response body that is the JSON number `5` is truthy
and not a container, so `posts not in api_response` raises `TypeError`,
which propagates out of `process_posts`. -/
theorem process_posts_raises_typeerror :
    process_posts true true true []
        (fun _ => HttpOutcome.success 200 (Json.num 5)) 30 0 none
      = .error PyError.typeError := by decide

/-- C6 amended: the processors never raise on the inputs their checks can
handle — the fetch failed, or the response is falsy or a JSON object whose
array field is absent, falsy, or a list of dict records (with numeric
reaction values for posts) — and this holds for every storage outcome
(connection, table-creation and insert failures are caught and logged).
Outside that shape the body can raise, e.g. a bare-number response body
(`TypeError` at the membership test). -/
theorem processors_log_and_return (connOk createOk execOk : Bool) (db : DB) :
    (∀ resp, wfResp "products" isObjRec resp = true →
        ∃ r, process_products_core connOk createOk execOk db resp = .ok r)
      ∧ (∀ resp, wfResp "users" isObjRec resp = true →
          ∃ r, process_users_core connOk createOk execOk db resp = .ok r)
      ∧ (∀ resp, wfResp "posts" wfPostRec resp = true →
          ∃ r, process_posts_core connOk createOk execOk db resp = .ok r) :=
  ⟨fun resp h =>
    process_core_no_raise "products" "products" productTuple isObjRec
      (fun _ hr => hr) productTuple_ok_of_obj connOk createOk execOk db resp h,
   fun resp h =>
    process_core_no_raise "users" "users" userTuple isObjRec
      (fun _ hr => hr) userTuple_ok_of_obj connOk createOk execOk db resp h,
   fun resp h =>
    process_core_no_raise "posts" "posts" postTuple wfPostRec
      wfPostRec_isObj postTuple_ok_of_wf connOk createOk execOk db resp h⟩

/-- Witness for the amended C6: a well-formed posts response with a
reactions breakdown, run with every storage oracle succeeding. -/
theorem processors_log_and_return_witness :
    wfResp "posts" wfPostRec
        (some (Json.obj [("posts", Json.arr
          [Json.obj [("id", Json.num 1),
                     ("reactions", Json.obj [("likes", Json.num 5)])]])]))
      = true
    ∧ ∃ r, process_posts_core true true true []
          (some (Json.obj [("posts", Json.arr
            [Json.obj [("id", Json.num 1),
                       ("reactions", Json.obj [("likes", Json.num 5)])]])]))
        = .ok r :=
  ⟨by decide,
   (processors_log_and_return true true true []).2.2
     (some (Json.obj [("posts", Json.arr
       [Json.obj [("id", Json.num 1),
                  ("reactions", Json.obj [("likes", Json.num 5)])]])]))
     (by decide)⟩

/-! ## C8: the Inspector's `format_value` summaries -/

theorem loads_empty : loads "" = none := rfl

/-- C8 counterexample: the claim says every stored list is shown as its
first element plus the count of the remaining ones, but a stored `tags`
list is rendered as the full comma-joined list: three tags print in full,
not as the first tag plus a remaining-count marker. -/
theorem format_value_tags_not_first_count :
    format_value "tags"
        (Json.str "[\x22alpha\x22, \x22beta\x22, \x22gamma\x22]")
      = "alpha, beta, gamma"
    ∧ "alpha, beta, gamma" ≠ "alpha (+ еще 2)" :=
  ⟨by decide, by decide⟩

/-- C8 amended: `format_value` parses a stored JSON text blob back and
summarizes it as follows.  Only the `images` field shows the first element
plus the count of the remaining ones (a single image prints alone); a
`tags` list of strings is comma-joined in full; a non-empty parsed object
shows its first three `key: value` pairs, with a hidden-count marker when
more than three exist; `description`/`body` text longer than 50 characters
is truncated to a 47-character prefix plus `...`; `price` and
`discountPercentage` numbers are formatted with two decimals; and a blob
that is not valid JSON falls back to the raw string. -/
theorem format_value_summaries :
    (∀ (s : String) (x r : Json) (rest : List Json),
        loads s = some (Json.arr (x :: r :: rest)) →
        format_value "images" (Json.str s)
          = pyStr x ++ " (+ еще " ++ toString (r :: rest).length ++ ")")
    ∧ (∀ (s : String) (x : Json), loads s = some (Json.arr [x]) →
        format_value "images" (Json.str s) = pyStr x)
    ∧ (∀ (s : String) (xs : List Json) (ss : List String),
        loads s = some (Json.arr xs) → xs ≠ [] → allStrs xs = some ss →
        format_value "tags" (Json.str s) = joinComma ss)
    ∧ (∀ (key s : String) (kvs : List (String × Json)),
        jsonKeys.contains key = true → loads s = some (Json.obj kvs) →
        kvs ≠ [] → kvs.length ≤ 3 →
        format_value key (Json.str s)
          = "\x7b"
              ++ joinComma (kvs.map fun kv => kv.1 ++ ": " ++ pyStr kv.2)
              ++ "\x7d")
    ∧ (∀ (key s : String) (kvs : List (String × Json)),
        jsonKeys.contains key = true → loads s = some (Json.obj kvs) →
        kvs.length > 3 →
        format_value key (Json.str s)
          = "\x7b"
              ++ joinComma
                ((kvs.take 3).map (fun kv => kv.1 ++ ": " ++ pyStr kv.2)
                  ++ ["... (" ++ toString (kvs.length - 3) ++ " скрыто)"])
              ++ "\x7d")
    ∧ (∀ s : String, s.length > 50 →
        format_value "description" (Json.str s) = (s.take 47).append "..."
          ∧ format_value "body" (Json.str s) = (s.take 47).append "...")
    ∧ (∀ n : Int, format_value "price" (Json.num n) = twoDec n
        ∧ format_value "discountPercentage" (Json.num n) = twoDec n)
    ∧ (∀ (key s : String), jsonKeys.contains key = true → s ≠ "" →
        loads s = none → format_value key (Json.str s) = s) := by
  have hne : ∀ (s : String) (d : Json), loads s = some d → s ≠ "" := by
    intro s d hload he
    rw [he, loads_empty] at hload
    exact Option.noConfusion hload
  refine ⟨?_, ?_, ?_, ?_, ?_, ?_, ?_, ?_⟩
  · intro s x r rest hload
    have hs := hne s _ hload
    simp [format_value, jsonKeys, truthy, hs, hload, formatParsed]
  · intro s x hload
    have hs := hne s _ hload
    simp [format_value, jsonKeys, truthy, hs, hload, formatParsed]
  · intro s xs ss hload hxs hss
    have hs := hne s _ hload
    simp [format_value, jsonKeys, truthy, hs, hload, formatParsed, hxs, hss]
  · intro key s kvs hkey hload hkvs hlen
    have hs := hne s _ hload
    have hmem : key ∈ jsonKeys := by simpa using hkey
    have htake : kvs.take 3 = kvs := List.take_of_length_le hlen
    have hgt : ¬ kvs.length > 3 := by omega
    simp [format_value, hmem, truthy, hs, hload, formatParsed, hkvs, hgt,
      htake]
  · intro key s kvs hkey hload hlen
    have hs := hne s _ hload
    have hmem : key ∈ jsonKeys := by simpa using hkey
    have hkvs : kvs ≠ [] := by
      intro he; rw [he] at hlen; exact absurd hlen (by simp)
    simp [format_value, hmem, truthy, hs, hload, formatParsed, hkvs, hlen]
  · intro s h50
    have hd : "description" ∉ jsonKeys := by decide
    have hb : "body" ∉ jsonKeys := by decide
    constructor <;> simp [format_value, hd, hb, h50]
  · intro n
    have hp : "price" ∉ jsonKeys := by decide
    have hdp : "discountPercentage" ∉ jsonKeys := by decide
    constructor <;> simp [format_value, hp, hdp]
  · intro key s hkey hs hload
    have hmem : key ∈ jsonKeys := by simpa using hkey
    simp [format_value, hmem, truthy, hs, hload, cellStr, pyStr]

/-- Witness for the amended C8, one concrete blob per summarization rule. -/
theorem format_value_summaries_witness :
    (format_value "images"
        (Json.str "[\x221.png\x22, \x222.png\x22, \x223.png\x22]")
      = pyStr (Json.str "1.png") ++ " (+ еще "
          ++ toString ((Json.str "2.png" :: [Json.str "3.png"]).length) ++ ")")
    ∧ (format_value "images" (Json.str "[\x22solo.png\x22]")
        = pyStr (Json.str "solo.png"))
    ∧ (format_value "tags" (Json.str "[\x22a\x22, \x22b\x22]")
        = joinComma ["a", "b"])
    ∧ (format_value "hair" (Json.str "\x7b\x22color\x22: \x22Brown\x22\x7d")
        = "\x7b"
            ++ joinComma ([("color", Json.str "Brown")].map
              fun kv => kv.1 ++ ": " ++ pyStr kv.2)
            ++ "\x7d")
    ∧ (format_value "address"
        (Json.str
          "\x7b\x22a\x22: 1, \x22b\x22: 2, \x22c\x22: 3, \x22d\x22: 4\x7d")
        = "\x7b"
            ++ joinComma
              (([("a", Json.num 1), ("b", Json.num 2), ("c", Json.num 3),
                 ("d", Json.num 4)].take 3).map
                  (fun kv => kv.1 ++ ": " ++ pyStr kv.2)
                ++ ["... ("
                    ++ toString ([("a", Json.num 1), ("b", Json.num 2),
                        ("c", Json.num 3), ("d", Json.num 4)].length - 3)
                    ++ " скрыто)"])
            ++ "\x7d")
    ∧ (format_value "description"
          (Json.str (String.mk (List.replicate 60 'x')))
        = ((String.mk (List.replicate 60 'x')).take 47).append "...")
    ∧ (format_value "price" (Json.num 1299) = twoDec 1299)
    ∧ (format_value "bank" (Json.str "oops \x7bnot json") = "oops \x7bnot json") :=
  ⟨format_value_summaries.1 "[\x221.png\x22, \x222.png\x22, \x223.png\x22]"
     (Json.str "1.png") (Json.str "2.png") [Json.str "3.png"] (by decide),
   format_value_summaries.2.1 "[\x22solo.png\x22]" (Json.str "solo.png")
     (by decide),
   format_value_summaries.2.2.1 "[\x22a\x22, \x22b\x22]"
     [Json.str "a", Json.str "b"] ["a", "b"] (by decide) (by decide)
     (by decide),
   format_value_summaries.2.2.2.1 "hair"
     "\x7b\x22color\x22: \x22Brown\x22\x7d" [("color", Json.str "Brown")]
     (by decide) (by decide) (by decide) (by decide),
   format_value_summaries.2.2.2.2.1 "address"
     "\x7b\x22a\x22: 1, \x22b\x22: 2, \x22c\x22: 3, \x22d\x22: 4\x7d"
     [("a", Json.num 1), ("b", Json.num 2), ("c", Json.num 3),
      ("d", Json.num 4)]
     (by decide) (by decide) (by decide),
   (format_value_summaries.2.2.2.2.2.1 (String.mk (List.replicate 60 'x'))
     (by decide)).1,
   (format_value_summaries.2.2.2.2.2.2.1 1299).1,
   format_value_summaries.2.2.2.2.2.2.2 "bank" "oops \x7bnot json"
     (by decide) (by decide) (by decide)⟩

/-- Witness for the amended C5 at a concrete URL, details and body. -/
theorem fetch_api_data_failure_modes_witness :
    (fetch_api_data "https://dummyjson.com/users"
        (.success 200 (Json.obj []))).1 = some (Json.obj [])
      ∧ (fetch_api_data "https://dummyjson.com/users" .timeout).1 = none
      ∧ (fetch_api_data "https://dummyjson.com/users"
          (.networkError "dns failure")).1 = none
      ∧ (fetch_api_data "https://dummyjson.com/users"
          (.decodeError "bad body")).1 = none
      ∧ (fetch_api_data "https://dummyjson.com/users" .timeout).2
          ≠ (fetch_api_data "https://dummyjson.com/users"
              (.networkError "dns failure")).2
      ∧ (fetch_api_data "https://dummyjson.com/users" .timeout).2
          ≠ (fetch_api_data "https://dummyjson.com/users"
              (.decodeError "bad body")).2
      ∧ (fetch_api_data "https://dummyjson.com/users"
            (.networkError "dns failure")).2
          ≠ (fetch_api_data "https://dummyjson.com/users"
              (.decodeError "bad body")).2 :=
  fetch_api_data_failure_modes "https://dummyjson.com/users" "dns failure"
    "bad body" 200 (Json.obj [])
